import Mathlib

/-!
# go-minitwit API handlers: command checkpoint, registration, posting, following

A shallow embedding of `go-minitwit/api_handlers.go`.

* A handler is a function from the request (`Context`) and the answers of the
  external collaborators (`Env`) to the ordered list of `Effect`s it performs:
  response writes, cookies set, and calls to the store.
* Go's `strconv.Atoi` / `strconv.Itoa` are modelled from their documented
  behaviour (decimal, optional sign, 64-bit `int`).
-/

namespace Minitwit

/-! ## Go standard library: decimal conversion -/

/-- Value of a decimal digit byte, `none` for any other byte. -/
def digitVal (c : Char) : Option Nat :=
  if 48 ≤ c.toNat ∧ c.toNat ≤ 57 then some (c.toNat - 48) else none

/-- The loop of `strconv.ParseUint` in base 10: every byte must be a digit. -/
def parseUintDigits : List Char → Nat → Option Nat
  | [], acc => some acc
  | c :: cs, acc =>
    match digitVal c with
    | none => none
    | some d => parseUintDigits cs (acc * 10 + d)

/-- Unsigned part of `strconv.ParseInt`: at least one digit, digits only. -/
def parseUint (cs : List Char) : Option Nat :=
  if cs = [] then none else parseUintDigits cs 0

/-- Go `strconv.Atoi` on a 64-bit platform; `none` stands for `err != nil`
(syntax error or value out of the range of `int`). -/
def Atoi (s : String) : Option Int :=
  match s.data with
  | [] => none
  | c :: cs =>
    if c = '-' then
      match parseUint cs with
      | none => none
      | some n => if n ≤ 2 ^ 63 then some (-(n : Int)) else none
    else if c = '+' then
      match parseUint cs with
      | none => none
      | some n => if n < 2 ^ 63 then some (n : Int) else none
    else
      match parseUint (c :: cs) with
      | none => none
      | some n => if n < 2 ^ 63 then some (n : Int) else none

/-- The byte of a decimal digit. -/
def digitChar (d : Nat) : Char := Char.ofNat (48 + d)

/-- Decimal digits of `n`, most significant first; `fuel` bounds the number of digits. -/
def formatUint : Nat → Nat → List Char
  | 0, _ => []
  | fuel + 1, n =>
    if n < 10 then [digitChar n] else formatUint fuel (n / 10) ++ [digitChar (n % 10)]

/-- Go `strconv.Itoa` / `strconv.FormatInt(i, 10)` / `fmt.Sprint` of an integer. -/
def Itoa (i : Int) : String :=
  match i with
  | Int.ofNat n => String.mk (formatUint (n + 1) n)
  | Int.negSucc n => String.mk ('-' :: formatUint (n + 2) (n + 1))

/-- Go `strings.Contains(s, substr)`. -/
def Contains (s substr : String) : Bool :=
  s.data.tails.any (fun t => substr.data.isPrefixOf t)

/-! ## Requests, errors, effects -/

/-- A Go `error` value: `none` is `nil`. -/
abbrev GoError := Option String

/-- The parts of `*gin.Context` the handlers read. -/
structure Context where
  /-- Go `c.Request.Method` -/
  Method : String
  /-- Go `c.Query(key)`: the query value, or the empty string when absent -/
  Query : String → String
  /-- Go `c.Param(key)` -/
  Param : String → String
  /-- Go `c.Request.Header.Get(key)`: the header value, or the empty string when absent -/
  HeaderGet : String → String
  /-- Go `c.Cookie(name)`: `none` when the request carries no such cookie (`err != nil`) -/
  Cookie : String → Option String
  /-- Go `c.Get(key)`: the stored value rendered with `%v`, `none` when it does not exist -/
  Get : String → Option String
  /-- Go `io.ReadAll(c.Request.Body)`: the bytes read and the read error -/
  Body : String × GoError

structure ErrorData where
  status : Nat
  error_msg : String
  deriving DecidableEq, Repr

structure UserData where
  Username : String
  Email : String
  Pwd : String
  deriving DecidableEq, Repr

structure MessageData where
  Content : String
  deriving DecidableEq, Repr

/-- The anonymous `requestBody` struct of `apiFllwsHandler`. -/
structure FollowRequest where
  Follow : String
  Unfollow : String
  deriving DecidableEq, Repr

/-- A Go `interface{}` value as far as the handlers inspect it. -/
inductive GoValue where
  | str (s : String)
  | other
  deriving DecidableEq, Repr

/-- A `map[string]interface{}` row returned by the store. -/
abbrev Row := List (String × GoValue)

/-- What a response write is given as its body. -/
inductive Payload where
  /-- No body (`AbortWithStatus`, `AbortWithError`) -/
  | empty
  /-- JSON of an `ErrorData` -/
  | errorData (e : ErrorData)
  /-- JSON of a string -/
  | jsonString (s : String)
  /-- JSON of `gin.H{"latest": n}` -/
  | latest (n : Int)
  /-- JSON of `gin.H{"followers": names}` -/
  | followers (names : List String)
  /-- Plain text (`c.String`) -/
  | text (s : String)
  deriving DecidableEq, Repr

/-- One observable action of a handler, in program order. -/
inductive Effect where
  | setCookie (name value : String) (maxAge : Int) (path domain : String) (secure httpOnly : Bool)
  | logMessage (msg : String)
  | println (msg : String)
  | setHeader (key value : String)
  /-- A call that writes the response status and body -/
  | write (status : Nat) (body : Payload)
  | registerUser (username email : String) (hash : List Nat)
  | addMessage (text authorId : String)
  | followUser (userId profileUserId : String)
  | unfollowUser (userId profileUserId : String)
  | getPublicMessages (numMsgs : Int)
  | getUserMessages (userId : Int) (numMsgs : Int)
  | getFollowers (userId : String) (limit : Int)
  /-- A failed type assertion -/
  | goPanic
  deriving DecidableEq, Repr

/-- Answers of the collaborators that are not part of `api_handlers.go`.
`getUserIDByUsername k name` is the answer to the `k`-th lookup (counted from 0)
a handler makes while serving one request: a database query may answer
differently, or fail, each time it is issued. -/
structure Env where
  getUserIDByUsername : Nat → String → Int × GoError
  registerUser : String → String → List Nat → GoError
  addMessage : String → String → GoError
  followUser : String → String → GoError
  unfollowUser : String → String → GoError
  getPublicMessages : Int → List Row × GoError
  getUserMessages : Int → Int → List Row × GoError
  getFollowers : String → Int → List Row × GoError
  filterMessages : List Row → List Row
  /-- Go `json.Marshal` followed by `string(...)` -/
  jsonMarshal : List Row → String
  /-- Go `md5.Sum([]byte(password))` -/
  md5Sum : String → List Nat
  /-- Go `json.Unmarshal(body, &registerReq)`: the struct after the call and the error -/
  unmarshalUserData : String → UserData × GoError
  /-- Go `json.Unmarshal(body, &messageReq)`: the struct after the call and the error -/
  unmarshalMessageData : String → MessageData × GoError
  /-- The decoding step of `c.BindJSON(&requestBody)` -/
  bindFollowRequest : String × GoError → FollowRequest × GoError

/-! ## Command checkpoint -/

def updateLatest (c : Context) : List Effect :=
  let parsedCommandID := c.Query "latest"
  if parsedCommandID ≠ "-1" then
    [Effect.setCookie "latestProcessedCommandId" parsedCommandID 3600 "/" "" false true]
  else []

def getLatestHelper (c : Context) : Int :=
  let r : String × Bool :=
    match c.Cookie "latestProcessedCommandId" with
    | some v => (v, false)
    | none => ("", true)
  let latestProcessedCommandID : String :=
    if r.2 = true ∨ r.1 = "" then "-1" else r.1
  match Atoi latestProcessedCommandID with
  | some n => if latestProcessedCommandID = "" then -1 else n
  | none => -1

/-- Handler `getLatest` (`api/latest`). -/
def getLatest (c : Context) : List Effect :=
  [Effect.write 200 (Payload.latest (getLatestHelper c))]

/-- The cookies of a client session, by name. -/
abbrev CookieJar := String → Option String

/-- The session's cookies after the client has received a response: each
`Set-Cookie` replaces the cookie of that name (a negative max-age removes it). -/
def storeCookies (jar : CookieJar) : List Effect → CookieJar
  | [] => jar
  | Effect.setCookie name value maxAge _ _ _ _ :: rest =>
    storeCookies (fun k => if k = name then (if maxAge < 0 then none else some value) else jar k) rest
  | _ :: rest => storeCookies jar rest

/-- A request `c` sent by the session holding `jar`. -/
def withCookies (c : Context) (jar : CookieJar) : Context := { c with Cookie := jar }

/-- Spec operation `observe`: the session sends request `c` (whose `latest` query
value is the observed sequence number), the server runs `updateLatest`, the
session keeps the cookies of the response. -/
def observe (jar : CookieJar) (c : Context) : CookieJar :=
  storeCookies jar (updateLatest (withCookies c jar))

/-- Spec operation `currentCheckpoint`: `getLatestHelper` on a request `c`
carrying the session's cookies. -/
def currentCheckpoint (jar : CookieJar) (c : Context) : Int :=
  getLatestHelper (withCookies c jar)

/-- A request with the given method and `latest` query value and nothing else. -/
def plainRequest (method latest : String) : Context :=
  { Method := method
    Query := fun k => if k = "latest" then latest else ""
    Param := fun _ => ""
    HeaderGet := fun _ => ""
    Cookie := fun _ => none
    Get := fun _ => none
    Body := ("", none) }

/-! ## Handlers -/

/-- Handler `/api/register`. -/
def apiRegisterHandler (env : Env) (c : Context) : List Effect :=
  let errorData : ErrorData := { status := 0, error_msg := "" }
  updateLatest c ++
  [Effect.logMessage (Itoa (getLatestHelper c) ++ " apiRegisterHandler: registering user.")] ++
  match c.Get "UserID" with
  | some userID =>
    [Effect.write 400 (Payload.errorData ⟨400, "User already exists: " ++ userID⟩)]
  | none =>
    if c.Method = "POST" then
      if c.Body.2.isSome then
        [Effect.write 400 (Payload.errorData ⟨400, "Failed to read JSON"⟩)]
      else
        let parsed := env.unmarshalUserData c.Body.1
        if parsed.2.isSome then
          [Effect.write 400 (Payload.errorData ⟨400, "Failed to parse JSON"⟩)]
        else
          let username := parsed.1.Username
          let email := parsed.1.Email
          let password := parsed.1.Pwd
          let looked := env.getUserIDByUsername 0 username
          let userID := looked.1
          if looked.2.isSome then
            [Effect.write 400 (Payload.errorData ⟨400, "Failed to get userID"⟩)]
          else if username = "" then
            [Effect.write 400 (Payload.jsonString "You have to enter a username")]
          else if email = "" ∨ Contains email "@" = false then
            [Effect.write 400 (Payload.jsonString "You have to enter a valid email address")]
          else if password = "" then
            [Effect.write 400 (Payload.jsonString "You have to enter a password")]
          else if Itoa userID ≠ "-1" then
            [Effect.write 400 (Payload.jsonString "The username is already taken")]
          else
            let hash := env.md5Sum password
            Effect.registerUser username email hash ::
              (if (env.registerUser username email hash).isSome then
                [Effect.write 400 (Payload.jsonString "Failed to register user")]
              else if errorData.error_msg ≠ "" then
                [Effect.write 400 (Payload.jsonString errorData.error_msg)]
              else
                [Effect.write 204 (Payload.jsonString "")])
    else []

/-- Handler `/api/msgs`. -/
def apiMsgsHandler (env : Env) (c : Context) : List Effect :=
  updateLatest c ++
  [Effect.logMessage (Itoa (getLatestHelper c) ++ " apiMsgsHandler: getting all messages.")] ++
  (let numMsgsInt : Int :=
     (match Atoi (c.HeaderGet "no") with
      | some n => n
      | none => 100)
   let fetched := env.getPublicMessages numMsgsInt
   Effect.getPublicMessages numMsgsInt ::
     ((if fetched.2.isSome then
        [Effect.write 400 (Payload.errorData ⟨400, "Failed to fetch messages from DB"⟩)]
       else []) ++
      [Effect.setHeader "Content-Type" "application/json",
       Effect.write 200 (Payload.text (env.jsonMarshal (env.filterMessages fetched.1)))]))

/-- Handler `/api/msgs/<username>`. -/
def apiMsgsPerUserHandler (env : Env) (c : Context) : List Effect :=
  updateLatest c ++
  [Effect.logMessage (Itoa (getLatestHelper c) ++
    " apiMsgsPerUserHandler: getting all messages by user " ++ c.Param "username" ++ ".")] ++
  (let profileUserName := c.Param "username"
   let looked := env.getUserIDByUsername 0 profileUserName
   let userId := looked.1
   if userId = -1 then
     [Effect.write 400 Payload.empty]
   else if looked.2.isSome then
     [Effect.write 500 Payload.empty]
   else if c.Method = "GET" then
     let numMsgsInt : Int :=
       (match Atoi (c.HeaderGet "no") with
        | some n => n
        | none => 100)
     let fetched := env.getUserMessages userId numMsgsInt
     Effect.getUserMessages userId numMsgsInt ::
       ((if fetched.2.isSome then
          [Effect.write 500 (Payload.errorData ⟨400, "Failed to fetch messages from DB"⟩)]
         else []) ++
        [Effect.setHeader "Content-Type" "application/json",
         Effect.write 200 (Payload.text (env.jsonMarshal (env.filterMessages fetched.1)))])
   else if c.Method = "POST" then
     let messageReq := (env.unmarshalMessageData c.Body.1).1
     let text := messageReq.Content
     let author := env.getUserIDByUsername 1 profileUserName
     let authorId := author.1
     (if c.Body.2.isSome then
        [Effect.write 400 (Payload.errorData ⟨400, "Failed to read JSON"⟩)]
      else []) ++
     [Effect.println text] ++
     (if author.2.isSome then
        [Effect.write 400 (Payload.errorData ⟨400, "Failed to get userID"⟩)]
      else []) ++
     [Effect.addMessage text (Itoa authorId)] ++
     (if (env.addMessage text (Itoa authorId)).isSome then
        [Effect.write 500 (Payload.errorData ⟨500, "Failed to upload message"⟩)]
      else []) ++
     [Effect.write 204 (Payload.text "")]
   else [])

/-- The loop `follower["username"].(string)` over the rows; `none` when a type
assertion fails. -/
def followerNames : List Row → Option (List String)
  | [] => some []
  | follower :: rest =>
    match follower.lookup "username" with
    | some (GoValue.str name) =>
      match followerNames rest with
      | some names => some (name :: names)
      | none => none
    | _ => none

/-- Handler `/api/fllws/<username>`. -/
def apiFllwsHandler (env : Env) (c : Context) : List Effect :=
  updateLatest c ++
  [Effect.logMessage (Itoa (getLatestHelper c) ++ " apiFllwsHandler: checking follow")] ++
  (if c.Method = "GET" then
    let profileUserName := c.Param "username"
    let numFollrInt : Int :=
      (match Atoi (c.HeaderGet "no") with
       | some n => n
       | none => 100)
    let looked := env.getUserIDByUsername 0 profileUserName
    let userId := looked.1
    if looked.2.isSome ∨ userId = -1 then
      [Effect.write 404 Payload.empty]
    else
      let userIdStr := Itoa userId
      let fetched := env.getFollowers userIdStr numFollrInt
      Effect.getFollowers userIdStr numFollrInt ::
        ((if fetched.2.isSome then
           [Effect.write 500 (Payload.errorData ⟨500, "Failed to fetch followers from DB"⟩)]
          else []) ++
         (match followerNames fetched.1 with
          | none => [Effect.goPanic]
          | some names =>
            [Effect.println ("map[followers:[" ++ " ".intercalate names ++ "]]"),
             Effect.write 200 (Payload.followers names)]))
  else if c.Method = "POST" then
    let bound := env.bindFollowRequest c.Body
    let requestBody := bound.1
    if bound.2.isSome then
      -- `BindJSON` itself aborts with 400 before the handler reacts
      [Effect.write 400 Payload.empty,
       Effect.write 404 (Payload.errorData ⟨404, "Failed to parse JSON"⟩)]
    else
      let profileUserName := c.Param "username"
      let looked := env.getUserIDByUsername 0 profileUserName
      let userId := looked.1
      if looked.2.isSome ∨ userId = -1 then
        [Effect.write 404 Payload.empty]
      else
        let userIdStr := Itoa userId
        if requestBody.Follow ≠ "" then
          let target := env.getUserIDByUsername 1 requestBody.Follow
          let profileUserID := target.1
          if target.2.isSome ∨ profileUserID = -1 then
            [Effect.write 404 Payload.empty]
          else
            let profileUserIDStr := Itoa profileUserID
            Effect.followUser userIdStr profileUserIDStr ::
              (if (env.followUser userIdStr profileUserIDStr).isSome then
                [Effect.write 404 (Payload.errorData ⟨404, "Failed to follow user"⟩)]
              else
                [Effect.write 204 (Payload.jsonString "")])
        else if requestBody.Unfollow ≠ "" then
          let target := env.getUserIDByUsername 1 requestBody.Unfollow
          let profileUserID := target.1
          if target.2.isSome ∨ profileUserID = -1 then
            [Effect.write 404 Payload.empty]
          else
            let profileUserIDStr := Itoa profileUserID
            Effect.unfollowUser userIdStr profileUserIDStr ::
              (if (env.unfollowUser userIdStr profileUserIDStr).isSome then
                [Effect.write 404 (Payload.errorData ⟨404, "Failed to unfollow user"⟩)]
              else
                [Effect.write 204 (Payload.jsonString "")])
        else
          [Effect.write 404
            (Payload.errorData ⟨404, "No 'follow' or 'unfollow' provided in request"⟩)]
  else [])

/-! ## Reading a trace -/

/-- The response writes of a trace, in order. -/
def writes : List Effect → List (Nat × Payload)
  | [] => []
  | Effect.write s b :: rest => (s, b) :: writes rest
  | _ :: rest => writes rest

/-- Whether the handler panicked on a failed type assertion. -/
def panicked : List Effect → Bool
  | [] => false
  | Effect.goPanic :: _ => true
  | _ :: rest => panicked rest

/-- The response the client receives: gin sends the header with the first write
and later writes cannot replace it. A handler that panics before any write is
answered with a bare 500 by gin's recovery middleware (the one `gin.Default()`
installs; the router is not part of this file). `none` when the handler
returned without writing. -/
def response (es : List Effect) : Option (Nat × Payload) :=
  match writes es with
  | r :: _ => some r
  | [] => if panicked es then some (500, Payload.empty) else none

/-- Status code of the response (gin answers 200 when the handler returned
without writing). -/
def responseStatus (es : List Effect) : Nat :=
  match response es with
  | some r => r.1
  | none => 200

def addMessageCalls : List Effect → List (String × String)
  | [] => []
  | Effect.addMessage t a :: rest => (t, a) :: addMessageCalls rest
  | _ :: rest => addMessageCalls rest

def followUserCalls : List Effect → List (String × String)
  | [] => []
  | Effect.followUser a b :: rest => (a, b) :: followUserCalls rest
  | _ :: rest => followUserCalls rest

def unfollowUserCalls : List Effect → List (String × String)
  | [] => []
  | Effect.unfollowUser a b :: rest => (a, b) :: unfollowUserCalls rest
  | _ :: rest => unfollowUserCalls rest

/-- The limits handed to the store (`getPublicMessages`, `getUserMessages`,
`getFollowers`), in order. -/
def storeLimits : List Effect → List Int
  | [] => []
  | Effect.getPublicMessages n :: rest => n :: storeLimits rest
  | Effect.getUserMessages _ n :: rest => n :: storeLimits rest
  | Effect.getFollowers _ n :: rest => n :: storeLimits rest
  | _ :: rest => storeLimits rest

/-- An environment in which the user names "ann" and "bob" exist (ids 1 and 2),
every other name is unknown, and no collaborator fails. The decoders stand in
for JSON decoding: they map a few body texts to fixed values and reject the rest. -/
def sampleEnv : Env :=
  { getUserIDByUsername := fun _ name =>
      if name = "ann" then (1, none) else if name = "bob" then (2, none) else (-1, none)
    registerUser := fun _ _ _ => none
    addMessage := fun _ _ => none
    followUser := fun _ _ => none
    unfollowUser := fun _ _ => none
    getPublicMessages := fun _ => ([], none)
    getUserMessages := fun _ _ => ([], none)
    getFollowers := fun _ _ => ([], none)
    filterMessages := fun rows => rows
    jsonMarshal := fun _ => "[]"
    md5Sum := fun _ => []
    unmarshalUserData := fun body =>
      if body = "carol" then (⟨"carol", "c@x.com", "p"⟩, none)
      else if body = "ann" then (⟨"ann", "a@x.com", "p"⟩, none)
      else if body = "empty" then (⟨"", "", ""⟩, none)
      else (⟨"", "", ""⟩, some "invalid character")
    unmarshalMessageData := fun body =>
      if body = "hello" then (⟨"hello"⟩, none)
      else if body = "empty" then (⟨""⟩, none)
      else (⟨""⟩, some "invalid character")
    bindFollowRequest := fun body =>
      if body.1 = "follow bob" then (⟨"bob", ""⟩, none)
      else if body.1 = "unfollow bob" then (⟨"", "bob"⟩, none)
      else if body.1 = "both" then (⟨"bob", "ann"⟩, none)
      else if body.1 = "neither" then (⟨"", ""⟩, none)
      else (⟨"", ""⟩, some "EOF") }

/-! ## Decimal conversion: printing then parsing -/

theorem digitVal_digitChar (d : Nat) (h : d < 10) : digitVal (digitChar d) = some d := by
  interval_cases d <;> decide

theorem parseUintDigits_append (xs ys : List Char) (acc : Nat) :
    parseUintDigits (xs ++ ys) acc = (parseUintDigits xs acc).bind (parseUintDigits ys) := by
  induction xs generalizing acc with
  | nil => simp [parseUintDigits]
  | cons x xs ih =>
    simp only [List.cons_append, parseUintDigits]
    cases digitVal x with
    | none => simp
    | some d => simpa using ih (acc * 10 + d)

theorem parseUintDigits_formatUint (fuel n : Nat) (h : n < fuel) :
    parseUintDigits (formatUint fuel n) 0 = some n := by
  induction fuel generalizing n with
  | zero => omega
  | succ fuel ih =>
    unfold formatUint
    split_ifs with h10
    · simp [parseUintDigits, digitVal_digitChar n h10]
    · have hq : n / 10 < fuel := by omega
      rw [parseUintDigits_append, ih (n / 10) hq]
      simp only [Option.some_bind, parseUintDigits]
      rw [digitVal_digitChar (n % 10) (Nat.mod_lt _ (by decide))]
      simp only
      congr 1
      omega

theorem formatUint_ne_nil (fuel n : Nat) (h : 0 < fuel) : formatUint fuel n ≠ [] := by
  cases fuel with
  | zero => omega
  | succ fuel =>
    unfold formatUint
    split_ifs <;> simp

/-- A digit string that parses does not start with a sign. -/
theorem head_not_sign (c : Char) (cs : List Char) (n : Nat)
    (h : parseUintDigits (c :: cs) 0 = some n) : c ≠ '-' ∧ c ≠ '+' := by
  constructor
  · rintro rfl
    simp [parseUintDigits, digitVal] at h
  · rintro rfl
    simp [parseUintDigits, digitVal] at h

theorem Atoi_Itoa_ofNat (n : Nat) (h : n < 2 ^ 63) : Atoi (Itoa (Int.ofNat n)) = some (n : Int) := by
  have hp := parseUintDigits_formatUint (n + 1) n (by omega)
  have hne := formatUint_ne_nil (n + 1) n (by omega)
  unfold Itoa Atoi
  simp only
  cases hf : formatUint (n + 1) n with
  | nil => exact absurd hf hne
  | cons c cs =>
    rw [hf] at hp
    obtain ⟨h1, h2⟩ := head_not_sign c cs n hp
    have h63 : n < 9223372036854775808 := by norm_num at h; exact h
    simp [h1, h2, parseUint, hp, h63]

theorem Atoi_Itoa_negSucc (n : Nat) (h : n + 1 ≤ 2 ^ 63) :
    Atoi (Itoa (Int.negSucc n)) = some (Int.negSucc n) := by
  have hp := parseUintDigits_formatUint (n + 2) (n + 1) (by omega)
  have hne := formatUint_ne_nil (n + 2) (n + 1) (by omega)
  unfold Itoa Atoi
  simp only [parseUint, hne, if_true, if_false, hp, h]
  simp [Int.negSucc_eq]

/-- Printing a Go `int` and parsing it back gives the same number. -/
theorem Atoi_Itoa (i : Int) (hlo : -(2 ^ 63) ≤ i) (hhi : i < 2 ^ 63) : Atoi (Itoa i) = some i := by
  cases i with
  | ofNat n =>
    have : n < 2 ^ 63 := by
      have : (n : Int) < 2 ^ 63 := hhi
      exact_mod_cast this
    exact Atoi_Itoa_ofNat n this
  | negSucc n =>
    have : n + 1 ≤ 2 ^ 63 := by
      have h1 : -(2 ^ 63 : Int) ≤ -((n : Int) + 1) := by rw [← Int.negSucc_eq]; exact hlo
      have h2 : ((n : Int) + 1) ≤ 2 ^ 63 := by linarith
      exact_mod_cast h2
    exact Atoi_Itoa_negSucc n this

/-- Only the integer -1 prints as "-1". -/
theorem Itoa_eq_neg_one (i : Int) : Itoa i = "-1" ↔ i = -1 := by
  constructor
  · intro h
    cases i with
    | ofNat n =>
      exfalso
      have hp := parseUintDigits_formatUint (n + 1) n (by omega)
      have hd : formatUint (n + 1) n = ['-', '1'] := by
        have := congrArg String.data h
        simpa [Itoa] using this
      rw [hd] at hp
      simp [parseUintDigits, digitVal] at hp
    | negSucc n =>
      have hp := parseUintDigits_formatUint (n + 2) (n + 1) (by omega)
      have hd : formatUint (n + 2) (n + 1) = ['1'] := by
        have := congrArg String.data h
        simpa [Itoa] using this
      rw [hd] at hp
      have : n = 0 := by
        simp [parseUintDigits, digitVal] at hp
        omega
      subst this
      rfl
  · rintro rfl
    decide

/-! ## Command checkpoint: what `observe` does to a session -/

theorem observe_cookie (jar : CookieJar) (c : Context) (h : c.Query "latest" ≠ "-1") :
    observe jar c "latestProcessedCommandId" = some (c.Query "latest") := by
  simp [observe, updateLatest, withCookies, h, storeCookies]

theorem observe_of_sentinel (jar : CookieJar) (c : Context) (h : c.Query "latest" = "-1") :
    observe jar c = jar := by
  simp [observe, updateLatest, withCookies, h, storeCookies]

theorem currentCheckpoint_of_cookie (jar : CookieJar) (c : Context) (v : String)
    (h : jar "latestProcessedCommandId" = some v) :
    currentCheckpoint jar c =
      if v = "" then -1 else (match Atoi v with | some n => n | none => -1) := by
  unfold currentCheckpoint getLatestHelper withCookies
  simp only [h]
  by_cases hv : v = ""
  · subst hv
    decide
  · simp only [hv, Bool.false_eq_true, or_self, if_false]

/-- C1 (as amended). The checkpoint is last-write-wins: after observing any
integer `b` other than the sentinel -1, `currentCheckpoint` is `b`, whatever was
stored before; so observing `a` and then `b` leaves `b`, also when `b < a`. -/
theorem checkpoint_last_write_wins (jar : CookieJar) (c1 c2 c3 : Context) (a b : Int)
    (_h1 : c1.Query "latest" = Itoa a) (h2 : c2.Query "latest" = Itoa b)
    (hb : b ≠ -1) (hlo : -(2 ^ 63) ≤ b) (hhi : b < 2 ^ 63) :
    currentCheckpoint (observe jar c2) c3 = b ∧
    currentCheckpoint (observe (observe jar c1) c2) c3 = b := by
  have hq : c2.Query "latest" ≠ "-1" := by
    rw [h2]
    exact fun h => hb ((Itoa_eq_neg_one b).1 h)
  have hrt : Atoi (Itoa b) = some b := Atoi_Itoa b hlo hhi
  have hne : Itoa b ≠ "" := by
    intro h
    rw [h] at hrt
    have hnone : Atoi "" = none := by decide
    rw [hnone] at hrt
    exact Option.noConfusion hrt
  have key : ∀ j : CookieJar, currentCheckpoint (observe j c2) c3 = b := by
    intro j
    rw [currentCheckpoint_of_cookie (observe j c2) c3 (c2.Query "latest") (observe_cookie j c2 hq)]
    rw [h2]
    simp [hne, hrt]
  exact ⟨key jar, key (observe jar c1)⟩

theorem checkpoint_last_write_wins_witness :
    currentCheckpoint
      (observe (observe (fun _ => none) (plainRequest "POST" (Itoa 5)))
        (plainRequest "POST" (Itoa 3))) (plainRequest "GET" "") = 3 :=
  (checkpoint_last_write_wins (fun _ => none) (plainRequest "POST" (Itoa 5))
    (plainRequest "POST" (Itoa 3)) (plainRequest "GET" "") 5 3
    (by decide) (by decide) (by decide) (by decide) (by decide)).2

/-- C1 (as stated) fails: a session that observes 5 and then 3 reports 3, not
max 5 3 = 5, although it reported 5 in between. -/
theorem checkpoint_decreases :
    currentCheckpoint (observe (fun _ => none) (plainRequest "POST" (Itoa 5)))
      (plainRequest "GET" "") = 5 ∧
    currentCheckpoint
      (observe (observe (fun _ => none) (plainRequest "POST" (Itoa 5)))
        (plainRequest "POST" (Itoa 3))) (plainRequest "GET" "") = 3 ∧
    currentCheckpoint
      (observe (observe (fun _ => none) (plainRequest "POST" (Itoa 5)))
        (plainRequest "POST" (Itoa 3))) (plainRequest "GET" "") ≠ max 5 3 := by
  decide

/-- C9. Observing the sentinel "-1" is a no-op: `updateLatest` sets no cookie, the
session's cookies are unchanged, and `currentCheckpoint` returns the same value
after the call as before it, for every stored state (none stored included). -/
theorem observe_sentinel_noop (jar : CookieJar) (c c3 : Context)
    (h : c.Query "latest" = "-1") :
    updateLatest (withCookies c jar) = [] ∧
    observe jar c = jar ∧
    currentCheckpoint (observe jar c) c3 = currentCheckpoint jar c3 := by
  refine ⟨?_, observe_of_sentinel jar c h, ?_⟩
  · simp [updateLatest, withCookies, h]
  · rw [observe_of_sentinel jar c h]

theorem observe_sentinel_noop_witness :
    (plainRequest "POST" "-1").Query "latest" = "-1" ∧
    currentCheckpoint
      (observe (observe (fun _ => none) (plainRequest "POST" "7")) (plainRequest "POST" "-1"))
      (plainRequest "GET" "") =
    currentCheckpoint (observe (fun _ => none) (plainRequest "POST" "7")) (plainRequest "GET" "") :=
  ⟨by decide,
   (observe_sentinel_noop (observe (fun _ => none) (plainRequest "POST" "7"))
     (plainRequest "POST" "-1") (plainRequest "GET" "") (by decide)).2.2⟩

/-- C10. A request whose `latest` value is not an integer for `strconv.Atoi`
(the empty string of an absent parameter included; such a value is never "-1")
discards the checkpoint: `updateLatest` overwrites the cookie with that string
and the following `getLatestHelper` returns -1, whatever was stored. -/
theorem unusable_latest_discards_checkpoint (jar : CookieJar) (c c3 : Context)
    (h : Atoi (c.Query "latest") = none) :
    c.Query "latest" ≠ "-1" ∧
    updateLatest (withCookies c jar) =
      [Effect.setCookie "latestProcessedCommandId" (c.Query "latest") 3600 "/" "" false true] ∧
    observe jar c "latestProcessedCommandId" = some (c.Query "latest") ∧
    currentCheckpoint (observe jar c) c3 = -1 := by
  have hq : c.Query "latest" ≠ "-1" := by
    intro hq
    rw [hq] at h
    exact absurd h (by decide)
  refine ⟨hq, ?_, observe_cookie jar c hq, ?_⟩
  · simp [updateLatest, withCookies, hq]
  · rw [currentCheckpoint_of_cookie (observe jar c) c3 (c.Query "latest") (observe_cookie jar c hq)]
    simp [h]

theorem unusable_latest_discards_checkpoint_witness :
    Atoi ((plainRequest "POST" "").Query "latest") = none ∧
    currentCheckpoint (observe (fun _ => none) (plainRequest "POST" "7")) (plainRequest "GET" "") = 7 ∧
    currentCheckpoint
      (observe (observe (fun _ => none) (plainRequest "POST" "7")) (plainRequest "POST" ""))
      (plainRequest "GET" "") = -1 :=
  ⟨by decide, by decide,
   (unusable_latest_discards_checkpoint (observe (fun _ => none) (plainRequest "POST" "7"))
     (plainRequest "POST" "") (plainRequest "GET" "") (by decide)).2.2.2⟩

/-! ## Traces: projections distribute over concatenation -/

theorem writes_append (xs ys : List Effect) : writes (xs ++ ys) = writes xs ++ writes ys := by
  induction xs with
  | nil => rfl
  | cons x xs ih => cases x <;> simp [writes, ih]

theorem addMessageCalls_append (xs ys : List Effect) :
    addMessageCalls (xs ++ ys) = addMessageCalls xs ++ addMessageCalls ys := by
  induction xs with
  | nil => rfl
  | cons x xs ih => cases x <;> simp [addMessageCalls, ih]

theorem followUserCalls_append (xs ys : List Effect) :
    followUserCalls (xs ++ ys) = followUserCalls xs ++ followUserCalls ys := by
  induction xs with
  | nil => rfl
  | cons x xs ih => cases x <;> simp [followUserCalls, ih]

theorem unfollowUserCalls_append (xs ys : List Effect) :
    unfollowUserCalls (xs ++ ys) = unfollowUserCalls xs ++ unfollowUserCalls ys := by
  induction xs with
  | nil => rfl
  | cons x xs ih => cases x <;> simp [unfollowUserCalls, ih]

theorem storeLimits_append (xs ys : List Effect) :
    storeLimits (xs ++ ys) = storeLimits xs ++ storeLimits ys := by
  induction xs with
  | nil => rfl
  | cons x xs ih => cases x <;> simp [storeLimits, ih]

theorem writes_updateLatest (c : Context) : writes (updateLatest c) = [] := by
  unfold updateLatest
  simp only
  split_ifs <;> rfl

theorem addMessageCalls_updateLatest (c : Context) : addMessageCalls (updateLatest c) = [] := by
  unfold updateLatest
  simp only
  split_ifs <;> rfl

theorem followUserCalls_updateLatest (c : Context) : followUserCalls (updateLatest c) = [] := by
  unfold updateLatest
  simp only
  split_ifs <;> rfl

theorem unfollowUserCalls_updateLatest (c : Context) : unfollowUserCalls (updateLatest c) = [] := by
  unfold updateLatest
  simp only
  split_ifs <;> rfl

theorem storeLimits_updateLatest (c : Context) : storeLimits (updateLatest c) = [] := by
  unfold updateLatest
  simp only
  split_ifs <;> rfl

theorem Contains_empty_at : Contains "" "@" = false := by decide

/-! ## Registration -/

/-- A store whose lookup fails. -/
def lookupFailsEnv : Env :=
  { sampleEnv with getUserIDByUsername := fun _ _ => (0, some "database is locked") }

/-- A POST request with the given path user, `no` header and body. -/
def postRequest (username body : String) : Context :=
  { Method := "POST"
    Query := fun _ => ""
    Param := fun k => if k = "username" then username else ""
    HeaderGet := fun _ => ""
    Cookie := fun _ => none
    Get := fun _ => none
    Body := (body, none) }

/-- C4 (as amended). On a POST whose body is read and parsed: with a user in the
context the answer is "User already exists: ..." whatever the fields; with none,
a failed lookup is answered first (the `ErrorData` with "Failed to get userID"),
and when the lookup reports no error the first violated rule is reported in the
order empty username, email without '@', empty password, username already taken;
always with status 400. -/
theorem register_validation_order (env : Env) (c : Context)
    (hm : c.Method = "POST") (hb : c.Body.2 = none)
    (hp : (env.unmarshalUserData c.Body.1).2 = none) :
    (∀ u, c.Get "UserID" = some u →
      response (apiRegisterHandler env c) =
        some (400, Payload.errorData ⟨400, "User already exists: " ++ u⟩)) ∧
    (c.Get "UserID" = none →
      ((env.getUserIDByUsername 0 (env.unmarshalUserData c.Body.1).1.Username).2 ≠ none →
        response (apiRegisterHandler env c) =
          some (400, Payload.errorData ⟨400, "Failed to get userID"⟩)) ∧
      ((env.getUserIDByUsername 0 (env.unmarshalUserData c.Body.1).1.Username).2 = none →
        ((env.unmarshalUserData c.Body.1).1.Username = "" →
          response (apiRegisterHandler env c) =
            some (400, Payload.jsonString "You have to enter a username")) ∧
        ((env.unmarshalUserData c.Body.1).1.Username ≠ "" →
          Contains (env.unmarshalUserData c.Body.1).1.Email "@" = false →
          response (apiRegisterHandler env c) =
            some (400, Payload.jsonString "You have to enter a valid email address")) ∧
        ((env.unmarshalUserData c.Body.1).1.Username ≠ "" →
          Contains (env.unmarshalUserData c.Body.1).1.Email "@" = true →
          (env.unmarshalUserData c.Body.1).1.Pwd = "" →
          response (apiRegisterHandler env c) =
            some (400, Payload.jsonString "You have to enter a password")) ∧
        ((env.unmarshalUserData c.Body.1).1.Username ≠ "" →
          Contains (env.unmarshalUserData c.Body.1).1.Email "@" = true →
          (env.unmarshalUserData c.Body.1).1.Pwd ≠ "" →
          (env.getUserIDByUsername 0 (env.unmarshalUserData c.Body.1).1.Username).1 ≠ -1 →
          response (apiRegisterHandler env c) =
            some (400, Payload.jsonString "The username is already taken")))) := by
  have hemail : ∀ e : String, Contains e "@" = true → e ≠ "" := by
    intro e he h0
    rw [h0, Contains_empty_at] at he
    exact Bool.noConfusion he
  refine ⟨?_, ?_⟩
  · intro u hu
    simp [response, apiRegisterHandler, writes_append, writes_updateLatest, writes, hu]
  intro hu
  refine ⟨?_, ?_⟩
  · intro herr
    have hs : (env.getUserIDByUsername 0 (env.unmarshalUserData c.Body.1).1.Username).2.isSome
        = true := by
      cases hx : (env.getUserIDByUsername 0 (env.unmarshalUserData c.Body.1).1.Username).2 with
      | none => exact absurd hx herr
      | some _ => rfl
    simp [response, apiRegisterHandler, writes_append, writes_updateLatest, writes, hm, hu, hb,
      hp, hs]
  · intro hok
    refine ⟨?_, ?_, ?_, ?_⟩
    · intro h1
      have hok0 := hok
      rw [h1] at hok0
      simp [response, apiRegisterHandler, writes_append, writes_updateLatest, writes, hm, hu, hb,
        hp, hok0, h1]
    · intro h1 h2
      simp [response, apiRegisterHandler, writes_append, writes_updateLatest, writes, hm, hu, hb,
        hp, hok, h1, h2]
    · intro h1 h2 h3
      simp [response, apiRegisterHandler, writes_append, writes_updateLatest, writes, hm, hu, hb,
        hp, hok, h1, h2, h3, hemail _ h2]
    · intro h1 h2 h3 h4
      have h5 : Itoa (env.getUserIDByUsername 0 (env.unmarshalUserData c.Body.1).1.Username).1
          ≠ "-1" := fun h => h4 ((Itoa_eq_neg_one _).1 h)
      simp [response, apiRegisterHandler, writes_append, writes_updateLatest, writes, hm, hu, hb,
        hp, hok, h1, h2, h3, h5, hemail _ h2]

theorem register_validation_order_witness :
    (postRequest "" "ann").Method = "POST" ∧ (postRequest "" "ann").Body.2 = none ∧
    (sampleEnv.unmarshalUserData (postRequest "" "ann").Body.1).2 = none ∧
    response (apiRegisterHandler sampleEnv (postRequest "" "ann")) =
      some (400, Payload.jsonString "The username is already taken") :=
  ⟨by decide, by decide, by decide,
   ((register_validation_order sampleEnv (postRequest "" "ann") (by decide) (by decide)
      (by decide)).2 (by decide)).2 (by decide) |>.2.2.2 (by decide) (by decide) (by decide)
      (by decide)⟩

/-- C4 (as stated) fails: with an empty username and a lookup that returns an
error the message is "Failed to get userID", not "You have to enter a username". -/
theorem register_lookup_error_first :
    (sampleEnv.unmarshalUserData (postRequest "" "empty").Body.1).1.Username = "" ∧
    response (apiRegisterHandler lookupFailsEnv (postRequest "" "empty")) =
      some (400, Payload.errorData ⟨400, "Failed to get userID"⟩) ∧
    response (apiRegisterHandler lookupFailsEnv (postRequest "" "empty")) ≠
      some (400, Payload.jsonString "You have to enter a username") := by
  decide

/-- A store whose first lookup answers as in `sampleEnv` and whose later
lookups fail. -/
def secondLookupFailsEnv : Env :=
  { sampleEnv with
    getUserIDByUsername := fun k name =>
      if k = 0 then sampleEnv.getUserIDByUsername 0 name else (0, some "database is locked") }

/-- C2, the code at the failing input: the path user resolves at the first
lookup, the lookup of the author (the second one) returns an error; the handler
writes status 400 and, not having returned, still calls `addMessage`. -/
theorem post_after_failed_author_lookup :
    (secondLookupFailsEnv.getUserIDByUsername 0 "ann") = (1, none) ∧
    (secondLookupFailsEnv.getUserIDByUsername 1 "ann").2 ≠ none ∧
    responseStatus (apiMsgsPerUserHandler secondLookupFailsEnv (postRequest "ann" "hello")) = 400 ∧
    addMessageCalls (apiMsgsPerUserHandler secondLookupFailsEnv (postRequest "ann" "hello")) =
      [("hello", "0")] := by
  decide

/-- C6 (as amended). The handler does not inspect the content: on a POST for a
path user that resolves, with the body read and parsed and the author lookup
reporting no error, `addMessage` is called exactly once with the content the
body yields, the empty string included, and the answer is 204 when `addMessage`
reports no error (500 otherwise). -/
theorem post_content_unchecked (env : Env) (c : Context) (hm : c.Method = "POST")
    (h0 : (env.getUserIDByUsername 0 (c.Param "username")).1 ≠ -1)
    (h0e : (env.getUserIDByUsername 0 (c.Param "username")).2 = none)
    (hb : c.Body.2 = none) (_hp : (env.unmarshalMessageData c.Body.1).2 = none)
    (h1 : (env.getUserIDByUsername 1 (c.Param "username")).2 = none) :
    addMessageCalls (apiMsgsPerUserHandler env c) =
      [((env.unmarshalMessageData c.Body.1).1.Content,
        Itoa (env.getUserIDByUsername 1 (c.Param "username")).1)] ∧
    responseStatus (apiMsgsPerUserHandler env c) =
      if env.addMessage (env.unmarshalMessageData c.Body.1).1.Content
          (Itoa (env.getUserIDByUsername 1 (c.Param "username")).1) = none
      then 204 else 500 := by
  constructor
  · simp only [apiMsgsPerUserHandler, hm, h0, h0e, hb, h1, addMessageCalls_append,
      addMessageCalls_updateLatest, addMessageCalls, Option.isSome_none, Bool.false_eq_true,
      if_false, List.nil_append, List.append_nil]
    split_ifs <;> rfl
  · simp only [responseStatus, response, apiMsgsPerUserHandler, hm, h0, h0e, hb, h1,
      writes_append, writes_updateLatest, writes, Option.isSome_none, Bool.false_eq_true,
      if_false, List.nil_append, List.append_nil]
    cases hr : env.addMessage (env.unmarshalMessageData c.Body.1).1.Content
        (Itoa (env.getUserIDByUsername 1 (c.Param "username")).1) with
    | none => simp [writes]
    | some e => simp [writes]

theorem post_content_unchecked_witness :
    (sampleEnv.unmarshalMessageData (postRequest "bob" "empty").Body.1).1.Content = "" ∧
    addMessageCalls (apiMsgsPerUserHandler sampleEnv (postRequest "bob" "empty")) =
      [((sampleEnv.unmarshalMessageData (postRequest "bob" "empty").Body.1).1.Content,
        Itoa (sampleEnv.getUserIDByUsername 1 ((postRequest "bob" "empty").Param "username")).1)] :=
  ⟨by decide,
   (post_content_unchecked sampleEnv (postRequest "bob" "empty") (by decide) (by decide)
     (by decide) (by decide) (by decide) (by decide)).1⟩

/-- C6 (as stated) fails: a POST for the existing user "ann" whose body yields
the empty content calls `addMessage` with the empty text and is answered 204. -/
theorem empty_content_is_posted :
    (sampleEnv.unmarshalMessageData (postRequest "ann" "empty").Body.1).1.Content = "" ∧
    addMessageCalls (apiMsgsPerUserHandler sampleEnv (postRequest "ann" "empty")) = [("", "1")] ∧
    responseStatus (apiMsgsPerUserHandler sampleEnv (postRequest "ann" "empty")) = 204 := by
  decide

/-! ## The limit handed to the store -/

/-- A GET request with the given path user and `no` header. -/
def getRequest (username no : String) : Context :=
  { Method := "GET"
    Query := fun _ => ""
    Param := fun k => if k = "username" then username else ""
    HeaderGet := fun k => if k = "no" then no else ""
    Cookie := fun _ => none
    Get := fun _ => none
    Body := ("", none) }

/-- C7 (as amended). The limit the three read handlers pass to the store is 100
when `strconv.Atoi` rejects the `no` value (absent, not a decimal integer, or out
of the range of `int`) and the parsed integer otherwise, also when that integer
is zero or negative; in particular a `no` value that is the decimal form of a Go
`int` `n` gives the limit `n`. The per-user and follower handlers make the call
only when the path user resolves. -/
theorem store_limit_from_header (env : Env) (c : Context) (n : Int)
    (h : (Atoi (c.HeaderGet "no") = none ∧ n = 100) ∨ Atoi (c.HeaderGet "no") = some n ∨
      (c.HeaderGet "no" = Itoa n ∧ -(2 ^ 63) ≤ n ∧ n < 2 ^ 63)) :
    storeLimits (apiMsgsHandler env c) = [n] ∧
    (c.Method = "GET" → (env.getUserIDByUsername 0 (c.Param "username")).1 ≠ -1 →
      (env.getUserIDByUsername 0 (c.Param "username")).2 = none →
      storeLimits (apiMsgsPerUserHandler env c) = [n]) ∧
    (c.Method = "GET" → (env.getUserIDByUsername 0 (c.Param "username")).1 ≠ -1 →
      (env.getUserIDByUsername 0 (c.Param "username")).2 = none →
      storeLimits (apiFllwsHandler env c) = [n]) := by
  have hn : (match Atoi (c.HeaderGet "no") with
      | some v => v
      | none => (100 : Int)) = n := by
    rcases h with ⟨h1, h2⟩ | h1 | ⟨h1, h2, h3⟩
    · rw [h1, h2]
    · rw [h1]
    · rw [h1, Atoi_Itoa n h2 h3]
  refine ⟨?_, ?_, ?_⟩
  · simp only [apiMsgsHandler, hn, storeLimits_append, storeLimits_updateLatest, storeLimits,
      List.nil_append]
    split_ifs <;> rfl
  · intro hm h0 h0e
    simp only [apiMsgsPerUserHandler, hm, h0, h0e, hn, storeLimits_append,
      storeLimits_updateLatest, storeLimits, Option.isSome_none, Bool.false_eq_true, if_false,
      if_true, List.nil_append]
    split_ifs <;> rfl
  · intro hm h0 h0e
    simp only [apiFllwsHandler, hm, h0, h0e, hn, storeLimits_append,
      storeLimits_updateLatest, storeLimits, Option.isSome_none, Bool.false_eq_true, if_false,
      if_true, or_self, List.nil_append]
    cases followerNames (env.getFollowers
      (Itoa (env.getUserIDByUsername 0 (c.Param "username")).1) n).1 <;>
      split_ifs <;> rfl

theorem store_limit_from_header_witness :
    Atoi ((getRequest "ann" "-5").HeaderGet "no") = some (-5) ∧
    storeLimits (apiMsgsHandler sampleEnv (getRequest "ann" "-5")) = [-5] ∧
    storeLimits (apiMsgsPerUserHandler sampleEnv (getRequest "ann" "-5")) = [-5] ∧
    storeLimits (apiFllwsHandler sampleEnv (getRequest "ann" "-5")) = [-5] :=
  ⟨by decide,
   (store_limit_from_header sampleEnv (getRequest "ann" "-5") (-5) (Or.inr (Or.inl (by decide)))).1,
   (store_limit_from_header sampleEnv (getRequest "ann" "-5") (-5)
     (Or.inr (Or.inl (by decide)))).2.1 (by decide) (by decide) (by decide),
   (store_limit_from_header sampleEnv (getRequest "ann" "-5") (-5)
     (Or.inr (Or.inl (by decide)))).2.2 (by decide) (by decide) (by decide)⟩

/-- C7 (as stated) fails: with `no` equal to "0" each of the three handlers
passes the limit 0 to the store, not 100. -/
theorem zero_limit_reaches_store :
    storeLimits (apiMsgsHandler sampleEnv (getRequest "ann" "0")) = [0] ∧
    storeLimits (apiMsgsPerUserHandler sampleEnv (getRequest "ann" "0")) = [0] ∧
    storeLimits (apiFllwsHandler sampleEnv (getRequest "ann" "0")) = [0] ∧
    storeLimits (apiMsgsHandler sampleEnv (getRequest "ann" "0")) ≠ [100] := by
  decide

/-! ## Following -/

/-- A lookup answer that does not name an existing user: an error, or the
not-found identifier -1. -/
def unresolved (r : Int × GoError) : Prop := r.2 ≠ none ∨ r.1 = -1

instance (r : Int × GoError) : Decidable (unresolved r) :=
  inferInstanceAs (Decidable (r.2 ≠ none ∨ r.1 = -1))

theorem unresolved_iff (r : Int × GoError) : (r.2.isSome = true ∨ r.1 = -1) ↔ unresolved r := by
  unfold unresolved
  cases r.2 <;> simp

/-- The trace of `apiFllwsHandler` on a POST, by cases on the lookups. -/
theorem apiFllwsHandler_post (env : Env) (c : Context) (hm : c.Method = "POST") :
    ∃ pre : List Effect, writes pre = [] ∧ followUserCalls pre = [] ∧ unfollowUserCalls pre = [] ∧
    apiFllwsHandler env c = pre ++
      (if (env.bindFollowRequest c.Body).2.isSome then
        [Effect.write 400 Payload.empty,
         Effect.write 404 (Payload.errorData ⟨404, "Failed to parse JSON"⟩)]
      else if unresolved (env.getUserIDByUsername 0 (c.Param "username")) then
        [Effect.write 404 Payload.empty]
      else if (env.bindFollowRequest c.Body).1.Follow ≠ "" then
        (if unresolved (env.getUserIDByUsername 1 (env.bindFollowRequest c.Body).1.Follow) then
          [Effect.write 404 Payload.empty]
        else
          [Effect.followUser (Itoa (env.getUserIDByUsername 0 (c.Param "username")).1)
            (Itoa (env.getUserIDByUsername 1 (env.bindFollowRequest c.Body).1.Follow).1),
           Effect.write
            (if (env.followUser (Itoa (env.getUserIDByUsername 0 (c.Param "username")).1)
              (Itoa (env.getUserIDByUsername 1 (env.bindFollowRequest c.Body).1.Follow).1)).isSome
             then 404 else 204)
            (if (env.followUser (Itoa (env.getUserIDByUsername 0 (c.Param "username")).1)
              (Itoa (env.getUserIDByUsername 1 (env.bindFollowRequest c.Body).1.Follow).1)).isSome
             then Payload.errorData ⟨404, "Failed to follow user"⟩ else Payload.jsonString "")])
      else if (env.bindFollowRequest c.Body).1.Unfollow ≠ "" then
        (if unresolved (env.getUserIDByUsername 1 (env.bindFollowRequest c.Body).1.Unfollow) then
          [Effect.write 404 Payload.empty]
        else
          [Effect.unfollowUser (Itoa (env.getUserIDByUsername 0 (c.Param "username")).1)
            (Itoa (env.getUserIDByUsername 1 (env.bindFollowRequest c.Body).1.Unfollow).1),
           Effect.write
            (if (env.unfollowUser (Itoa (env.getUserIDByUsername 0 (c.Param "username")).1)
              (Itoa (env.getUserIDByUsername 1 (env.bindFollowRequest c.Body).1.Unfollow).1)).isSome
             then 404 else 204)
            (if (env.unfollowUser (Itoa (env.getUserIDByUsername 0 (c.Param "username")).1)
              (Itoa (env.getUserIDByUsername 1 (env.bindFollowRequest c.Body).1.Unfollow).1)).isSome
             then Payload.errorData ⟨404, "Failed to unfollow user"⟩ else Payload.jsonString "")])
      else
        [Effect.write 404
          (Payload.errorData ⟨404, "No 'follow' or 'unfollow' provided in request"⟩)]) := by
  have hpg : ("POST" = "GET") = False := eq_false (by decide)
  refine ⟨updateLatest c ++
    [Effect.logMessage (Itoa (getLatestHelper c) ++ " apiFllwsHandler: checking follow")],
    ?_, ?_, ?_, ?_⟩
  · simp [writes_append, writes_updateLatest, writes]
  · simp [followUserCalls_append, followUserCalls_updateLatest, followUserCalls]
  · simp [unfollowUserCalls_append, unfollowUserCalls_updateLatest, unfollowUserCalls]
  · unfold apiFllwsHandler
    simp only [hm, hpg, if_false, if_true, unresolved_iff]
    congr 1
    split_ifs <;> rfl

/-- A store as `sampleEnv` whose request body names both `follow` ("bob", who
exists) and `unfollow` ("ghost", who does not). -/
def bothNamedEnv : Env :=
  { sampleEnv with bindFollowRequest := fun _ => (⟨"bob", "ghost"⟩, none) }

/-- C8 (as amended). On a POST whose body binds and whose path user resolves:
a non-empty `follow` selects the follow path whatever `unfollow` holds
(`unfollowUser` is not called; `followUser` is called once and the answer is 204,
or 404 "Failed to follow user" when it fails, if the followed name resolves; a
bare 404 and no call if it does not); a non-empty `unfollow` is acted on in the
same way only when `follow` is empty; and the handler answers with the `ErrorData`
"No 'follow' or 'unfollow' provided in request" exactly when both are empty,
calling neither. -/
theorem follow_takes_precedence (env : Env) (c : Context) (hm : c.Method = "POST")
    (hbind : (env.bindFollowRequest c.Body).2 = none)
    (hpath : ¬ unresolved (env.getUserIDByUsername 0 (c.Param "username"))) :
    ((env.bindFollowRequest c.Body).1.Follow ≠ "" →
      unfollowUserCalls (apiFllwsHandler env c) = [] ∧
      (unresolved (env.getUserIDByUsername 1 (env.bindFollowRequest c.Body).1.Follow) →
        followUserCalls (apiFllwsHandler env c) = [] ∧
        response (apiFllwsHandler env c) = some (404, Payload.empty)) ∧
      (¬ unresolved (env.getUserIDByUsername 1 (env.bindFollowRequest c.Body).1.Follow) →
        followUserCalls (apiFllwsHandler env c) =
          [(Itoa (env.getUserIDByUsername 0 (c.Param "username")).1,
            Itoa (env.getUserIDByUsername 1 (env.bindFollowRequest c.Body).1.Follow).1)] ∧
        response (apiFllwsHandler env c) =
          some (if env.followUser (Itoa (env.getUserIDByUsername 0 (c.Param "username")).1)
              (Itoa (env.getUserIDByUsername 1 (env.bindFollowRequest c.Body).1.Follow).1) = none
            then (204, Payload.jsonString "")
            else (404, Payload.errorData ⟨404, "Failed to follow user"⟩)))) ∧
    ((env.bindFollowRequest c.Body).1.Follow = "" →
      (env.bindFollowRequest c.Body).1.Unfollow ≠ "" →
      followUserCalls (apiFllwsHandler env c) = [] ∧
      (unresolved (env.getUserIDByUsername 1 (env.bindFollowRequest c.Body).1.Unfollow) →
        unfollowUserCalls (apiFllwsHandler env c) = [] ∧
        response (apiFllwsHandler env c) = some (404, Payload.empty)) ∧
      (¬ unresolved (env.getUserIDByUsername 1 (env.bindFollowRequest c.Body).1.Unfollow) →
        unfollowUserCalls (apiFllwsHandler env c) =
          [(Itoa (env.getUserIDByUsername 0 (c.Param "username")).1,
            Itoa (env.getUserIDByUsername 1 (env.bindFollowRequest c.Body).1.Unfollow).1)] ∧
        response (apiFllwsHandler env c) =
          some (if env.unfollowUser (Itoa (env.getUserIDByUsername 0 (c.Param "username")).1)
              (Itoa (env.getUserIDByUsername 1 (env.bindFollowRequest c.Body).1.Unfollow).1) = none
            then (204, Payload.jsonString "")
            else (404, Payload.errorData ⟨404, "Failed to unfollow user"⟩)))) ∧
    ((env.bindFollowRequest c.Body).1.Follow = "" →
      (env.bindFollowRequest c.Body).1.Unfollow = "" →
      followUserCalls (apiFllwsHandler env c) = [] ∧
      unfollowUserCalls (apiFllwsHandler env c) = []) ∧
    (response (apiFllwsHandler env c) =
        some (404, Payload.errorData ⟨404, "No 'follow' or 'unfollow' provided in request"⟩) ↔
      (env.bindFollowRequest c.Body).1.Follow = "" ∧
      (env.bindFollowRequest c.Body).1.Unfollow = "") := by
  obtain ⟨pre, hw, hf, hu, heq⟩ := apiFllwsHandler_post env c hm
  rw [heq]
  clear heq
  have hb : (env.bindFollowRequest c.Body).2.isSome = false := by rw [hbind]; rfl
  simp only [response, writes_append, followUserCalls_append, unfollowUserCalls_append, hw, hf,
    hu, List.nil_append, hb, hpath, Bool.false_eq_true, if_false]
  refine ⟨?_, ?_, ?_, ?_⟩
  · intro hfl
    refine ⟨?_, ?_, ?_⟩
    · simp only [hfl, ne_eq, not_false_eq_true, if_true]
      split_ifs <;> simp [unfollowUserCalls]
    · intro h1
      simp [hfl, h1, followUserCalls, writes]
    · intro h1
      cases hr : env.followUser (Itoa (env.getUserIDByUsername 0 (c.Param "username")).1)
          (Itoa (env.getUserIDByUsername 1 (env.bindFollowRequest c.Body).1.Follow).1) <;>
        simp [hfl, h1, hr, followUserCalls, writes]
  · intro hfl hul
    refine ⟨?_, ?_, ?_⟩
    · simp only [hfl, hul, ne_eq, not_true_eq_false, not_false_eq_true, if_true, if_false]
      split_ifs <;> simp [followUserCalls]
    · intro h1
      simp [hfl, hul, h1, unfollowUserCalls, writes]
    · intro h1
      cases hr : env.unfollowUser (Itoa (env.getUserIDByUsername 0 (c.Param "username")).1)
          (Itoa (env.getUserIDByUsername 1 (env.bindFollowRequest c.Body).1.Unfollow).1) <;>
        simp [hfl, hul, h1, hr, unfollowUserCalls, writes]
  · intro hfl hul
    simp [hfl, hul, followUserCalls, unfollowUserCalls]
  · by_cases hfl : (env.bindFollowRequest c.Body).1.Follow = ""
    · by_cases hul : (env.bindFollowRequest c.Body).1.Unfollow = ""
      · simp [hfl, hul, writes]
      · by_cases h1 : unresolved
            (env.getUserIDByUsername 1 (env.bindFollowRequest c.Body).1.Unfollow)
        · simp [hfl, hul, h1, writes]
        · cases hr : env.unfollowUser (Itoa (env.getUserIDByUsername 0 (c.Param "username")).1)
              (Itoa (env.getUserIDByUsername 1 (env.bindFollowRequest c.Body).1.Unfollow).1) <;>
            simp [hfl, hul, h1, hr, writes]
    · by_cases h1 : unresolved (env.getUserIDByUsername 1 (env.bindFollowRequest c.Body).1.Follow)
      · simp [hfl, h1, writes]
      · cases hr : env.followUser (Itoa (env.getUserIDByUsername 0 (c.Param "username")).1)
            (Itoa (env.getUserIDByUsername 1 (env.bindFollowRequest c.Body).1.Follow).1) <;>
          simp [hfl, h1, hr, writes]

theorem follow_takes_precedence_witness :
    (bothNamedEnv.bindFollowRequest (postRequest "ann" "").Body).1 = ⟨"bob", "ghost"⟩ ∧
    unfollowUserCalls (apiFllwsHandler bothNamedEnv (postRequest "ann" "")) = [] ∧
    followUserCalls (apiFllwsHandler bothNamedEnv (postRequest "ann" "")) =
      [(Itoa (bothNamedEnv.getUserIDByUsername 0 ((postRequest "ann" "").Param "username")).1,
        Itoa (bothNamedEnv.getUserIDByUsername 1
          (bothNamedEnv.bindFollowRequest (postRequest "ann" "").Body).1.Follow).1)] ∧
    ¬ (response (apiFllwsHandler bothNamedEnv (postRequest "ann" "")) =
        some (404, Payload.errorData ⟨404, "No 'follow' or 'unfollow' provided in request"⟩)) :=
  ⟨by decide,
   ((follow_takes_precedence bothNamedEnv (postRequest "ann" "") (by decide) (by decide)
      (by decide)).1 (by decide)).1,
   (((follow_takes_precedence bothNamedEnv (postRequest "ann" "") (by decide) (by decide)
      (by decide)).1 (by decide)).2.2 (by decide)).1,
   fun h => absurd (((follow_takes_precedence bothNamedEnv (postRequest "ann" "") (by decide)
      (by decide) (by decide)).2.2.2.1 h).1) (by decide)⟩

/-- C8 (as stated) fails: a body naming both `follow` ("bob") and `unfollow`
("ann") is accepted: `followUser` is called and the answer is 204. -/
theorem both_fields_follow_is_accepted :
    (sampleEnv.bindFollowRequest (postRequest "ann" "both").Body).1 = ⟨"bob", "ann"⟩ ∧
    followUserCalls (apiFllwsHandler sampleEnv (postRequest "ann" "both")) = [("1", "2")] ∧
    unfollowUserCalls (apiFllwsHandler sampleEnv (postRequest "ann" "both")) = [] ∧
    responseStatus (apiFllwsHandler sampleEnv (postRequest "ann" "both")) = 204 := by
  decide

theorem storeCookies_append (jar : CookieJar) (xs ys : List Effect) :
    storeCookies jar (xs ++ ys) = storeCookies (storeCookies jar xs) ys := by
  induction xs generalizing jar with
  | nil => rfl
  | cons x xs ih => cases x <;> simp [storeCookies, ih]

/-- Whether an effect is a `SetCookie`. -/
def Effect.isSetCookie : Effect → Bool
  | Effect.setCookie _ _ _ _ _ _ _ => true
  | _ => false

theorem storeCookies_cons (jar : CookieJar) (e : Effect) (rest : List Effect)
    (h : e.isSetCookie = false) : storeCookies jar (e :: rest) = storeCookies jar rest := by
  cases e <;> first
    | rfl
    | exact Bool.noConfusion h

theorem storeCookies_nil (jar : CookieJar) : storeCookies jar [] = jar := rfl

theorem apiRegisterHandler_cookies (env : Env) (c : Context) (jar : CookieJar) :
    storeCookies jar (apiRegisterHandler env c) = storeCookies jar (updateLatest c) := by
  unfold apiRegisterHandler
  simp only [storeCookies_append]
  generalize storeCookies jar (updateLatest c) = j
  cases c.Get "UserID" with
  | some u => simp only [storeCookies_cons, Effect.isSetCookie, storeCookies_nil]
  | none =>
    simp only
    repeat' split
    all_goals simp only [storeCookies_cons, Effect.isSetCookie, storeCookies_nil]

theorem apiMsgsHandler_cookies (env : Env) (c : Context) (jar : CookieJar) :
    storeCookies jar (apiMsgsHandler env c) = storeCookies jar (updateLatest c) := by
  unfold apiMsgsHandler
  simp only [storeCookies_append]
  generalize storeCookies jar (updateLatest c) = j
  repeat' split
  all_goals simp only [storeCookies_cons, Effect.isSetCookie, storeCookies_nil,
    List.cons_append, List.nil_append]

theorem apiMsgsPerUserHandler_cookies (env : Env) (c : Context) (jar : CookieJar) :
    storeCookies jar (apiMsgsPerUserHandler env c) = storeCookies jar (updateLatest c) := by
  unfold apiMsgsPerUserHandler
  simp only [storeCookies_append]
  generalize storeCookies jar (updateLatest c) = j
  repeat' split
  all_goals simp only [storeCookies_cons, Effect.isSetCookie, storeCookies_nil,
    List.cons_append, List.nil_append]

theorem apiFllwsHandler_cookies (env : Env) (c : Context) (jar : CookieJar) :
    storeCookies jar (apiFllwsHandler env c) = storeCookies jar (updateLatest c) := by
  unfold apiFllwsHandler
  simp only [storeCookies_append]
  generalize storeCookies jar (updateLatest c) = j
  repeat' split
  all_goals simp only [storeCookies_cons, Effect.isSetCookie, storeCookies_nil,
    List.cons_append, List.nil_append]

/-- The only cookies a handler sets are those of its leading `updateLatest`: the
session's cookies after any of the four handlers are those after `observe`. -/
theorem handlers_observe (env : Env) (c : Context) (jar : CookieJar) :
    storeCookies jar (apiRegisterHandler env c) = observe jar c ∧
    storeCookies jar (apiMsgsHandler env c) = observe jar c ∧
    storeCookies jar (apiMsgsPerUserHandler env c) = observe jar c ∧
    storeCookies jar (apiFllwsHandler env c) = observe jar c :=
  ⟨apiRegisterHandler_cookies env c jar, apiMsgsHandler_cookies env c jar,
   apiMsgsPerUserHandler_cookies env c jar, apiFllwsHandler_cookies env c jar⟩

/-! ## Posting: the guard on the path user -/

/-- When the first lookup of `apiMsgsPerUserHandler` does not resolve the path
user, the handler stops: 400 for the not-found identifier -1, 500 for an error
with another identifier, and `addMessage` is not called. -/
theorem post_rejected_when_path_user_unresolved (env : Env) (c : Context)
    (h : unresolved (env.getUserIDByUsername 0 (c.Param "username"))) :
    addMessageCalls (apiMsgsPerUserHandler env c) = [] ∧
    ((env.getUserIDByUsername 0 (c.Param "username")).1 = -1 →
      responseStatus (apiMsgsPerUserHandler env c) = 400) ∧
    ((env.getUserIDByUsername 0 (c.Param "username")).1 ≠ -1 →
      responseStatus (apiMsgsPerUserHandler env c) = 500) := by
  have hcases : (env.getUserIDByUsername 0 (c.Param "username")).1 = -1 ∨
      ((env.getUserIDByUsername 0 (c.Param "username")).1 ≠ -1 ∧
       (env.getUserIDByUsername 0 (c.Param "username")).2.isSome = true) := by
    by_cases h1 : (env.getUserIDByUsername 0 (c.Param "username")).1 = -1
    · exact Or.inl h1
    · refine Or.inr ⟨h1, ?_⟩
      rcases h with h | h
      · cases hx : (env.getUserIDByUsername 0 (c.Param "username")).2 with
        | none => exact absurd hx h
        | some _ => rfl
      · exact absurd h h1
  rcases hcases with h1 | ⟨h1, h2⟩
  · simp [apiMsgsPerUserHandler, h1, responseStatus, response, writes_append,
      writes_updateLatest, writes, addMessageCalls_append, addMessageCalls_updateLatest,
      addMessageCalls]
  · simp [apiMsgsPerUserHandler, h1, h2, responseStatus, response, writes_append,
      writes_updateLatest, writes, addMessageCalls_append, addMessageCalls_updateLatest,
      addMessageCalls]

end Minitwit
